import Mathlib

/-!
Shallow embedding of `src/hooks/useModelList.ts` from the deep-research
repository, together with theorems about the `refresh` operation it exports.

The TypeScript hook reads a settings store (operating mode, per-provider
credentials and proxy overrides, shared access password), dispatches on a
provider identifier, optionally issues one `fetch`, and normalizes the JSON
response into a list of model-name strings, which it both returns and writes
into component state via `setModelList`.

The embedding models:
 - the settings store as the structure `SettingStore`;
 - the operating mode string (`"local"` / `"proxy"`) as the inductive `Mode`;
 - the `radash` `shuffle` as an explicit function parameter `shuf`
   (theorems that depend on it hypothesise that it permutes its input);
 - the HTTP transport as a `FetchBodies` record carrying, per provider
   shape, the optional array field of the JSON body the single fetch of that
   branch would resolve with (`none` models a body whose expected array
   field is absent, matching the destructuring defaults `{ models = [] }`
   and `{ data = [] }` in the source);
 - a call's observable behaviour as `RefreshResult`: the list of fetch
   requests issued (url and headers), the argument of the `setModelList`
   call if one happened, and the returned list.

JavaScript string primitives used by the source (`split(",")`,
`startsWith`, `includes`, `replace(pat, "")`) are embedded as executable
functions on `List Char` with exactly the JS semantics (in particular,
`String.prototype.replace` with a string pattern replaces only the FIRST
occurrence).
-/

namespace DeepResearch

/-- Operating mode, the `mode` field of the settings store:
`loc` embeds the string `"local"`, `proxy` the string `"proxy"`. -/
inductive Mode where
  | loc
  | proxy
deriving DecidableEq

/-- The settings store (`useSettingStore.getState()`): the fields the hook
destructures.  TypeScript string fields that may be `undefined` are embedded
as `String` with `""` standing for both `undefined` and the empty string,
which coincide under the falsiness tests (`!apiKey`, `apiProxy || BASE`)
the source applies to them. -/
structure SettingStore where
  mode : Mode := Mode.loc
  provider : String := ""
  apiKey : String := ""
  apiProxy : String := ""
  accessPassword : String := ""
  openRouterApiKey : String := ""
  openRouterApiProxy : String := ""
  openAIApiKey : String := ""
  openAIApiProxy : String := ""
  anthropicApiKey : String := ""
  anthropicApiProxy : String := ""
  deepseekApiKey : String := ""
  deepseekApiProxy : String := ""
  xAIApiKey : String := ""
  xAIApiProxy : String := ""
  openAICompatibleApiKey : String := ""
  openAICompatibleApiProxy : String := ""
  ollamaApiProxy : String := ""

/-- `interface GeminiModel` of the source.  TS `number` fields are embedded
as `Float`; optional fields as `Option`.  Field defaults are construction
convenience only. -/
structure GeminiModel where
  name : String := ""
  description : String := ""
  displayName : String := ""
  inputTokenLimit : Float := 0
  maxTemperature : Option Float := none
  outputTokenLimit : Float := 0
  temperature : Option Float := none
  topK : Option Float := none
  topP : Option Float := none
  supportedGenerationMethods : List String := []
  version : String := ""

/-- `architecture` field of `interface OpenRouterModel`. -/
structure OpenRouterArchitecture where
  modality : String := ""
  tokenizer : String := ""
  instruct_type : Option String := none

/-- `top_provider` field of `interface OpenRouterModel`. -/
structure OpenRouterTopProvider where
  context_length : Float := 0
  max_completion_tokens : Float := 0
  is_moderated : Bool := false

/-- `pricing` field of `interface OpenRouterModel`. -/
structure OpenRouterPricing where
  prompt : String := ""
  completion : String := ""
  image : String := ""
  request : String := ""
  input_cache_read : String := ""
  input_cache_write : String := ""
  web_search : String := ""
  internal_reasoning : String := ""

/-- `interface OpenRouterModel` of the source. -/
structure OpenRouterModel where
  id : String := ""
  name : String := ""
  created : Float := 0
  description : String := ""
  context_length : Float := 0
  architecture : OpenRouterArchitecture := {}
  top_provider : OpenRouterTopProvider := {}
  pricing : OpenRouterPricing := {}
  per_request_limits : Option (List (String × String)) := none

/-- `interface OpenAIModel` of the source (also the element shape the
deepseek, xai and openaicompatible branches cast to). -/
structure OpenAIModel where
  id : String := ""
  object : String := ""
  created : Float := 0
  owned_by : String := ""

/-- `interface AnthropicModel` of the source. -/
structure AnthropicModel where
  id : String := ""
  display_name : String := ""
  type : String := ""
  created_at : String := ""

/-- `details` field of `interface OllamaModel`. -/
structure OllamaModelDetails where
  format : Option String := none
  family : Option String := none
  families : Option String := none
  parameter_size : Option String := none
  quantization_level : Option String := none

/-- `interface OllamaModel` of the source. -/
structure OllamaModel where
  name : String := ""
  modified_at : String := ""
  size : Float := 0
  digest : String := ""
  details : OllamaModelDetails := {}

/-! ### JavaScript string primitives -/

/-- JS `String.prototype.split(sep)` for a one-character separator, on the
character list: splits at every occurrence; the empty string yields `[[]]`. -/
def splitOnChar (c : Char) : List Char → List (List Char)
  | [] => [[]]
  | x :: xs =>
    match splitOnChar c xs with
    | [] => if x = c then [[], []] else [[x]]
    | y :: ys => if x = c then [] :: y :: ys else (x :: y) :: ys

/-- JS `s.split(",")`. -/
def strSplitOnComma (s : String) : List String :=
  (splitOnChar ',' s.data).map fun l => ⟨l⟩

/-- JS `s.startsWith(pat)`. -/
def strStartsWith (s pat : String) : Bool :=
  pat.data.isPrefixOf s.data

/-- Does `pat` occur as a contiguous block of `l`?  (JS
`String.prototype.includes` on character lists.) -/
def listIncludes (pat : List Char) : List Char → Bool
  | [] => pat.isPrefixOf []
  | c :: cs => pat.isPrefixOf (c :: cs) || listIncludes pat cs

/-- JS `s.includes(pat)`. -/
def strIncludes (s pat : String) : Bool :=
  listIncludes pat.data s.data

/-- Remove the first occurrence of `pat` from `l`; `l` unchanged when `pat`
does not occur. -/
def removeFirst (pat : List Char) : List Char → List Char
  | [] => []
  | c :: cs =>
    if pat.isPrefixOf (c :: cs) then (c :: cs).drop pat.length
    else c :: removeFirst pat cs

/-- JS `s.replace(pat, "")` with a string pattern: removes only the FIRST
occurrence of `pat`. -/
def replaceFirst (s pat : String) : String :=
  ⟨removeFirst pat.data s.data⟩

/-- JS `a || b` on strings: `b` when `a` is falsy (empty / `undefined`). -/
def orDefault (s dflt : String) : String :=
  if s = "" then dflt else s

/-! ### Constants and utilities imported by the hook from modules that are
not part of `src/` -/

/-- Modelled from the spec: `completePath(base, prefix)` from `@/utils/url`
(the module is not under `src/`).  Spec contract: "strip trailing slash from
base; if base's path already ends with prefix, return base unchanged; else
concatenate base + prefix". -/
def completePath (base pfx : String) : String :=
  let b : String := if base.data.getLast? = some '/' then ⟨base.data.dropLast⟩ else base
  if pfx.data.isSuffixOf b.data then b else b ++ pfx

/-- Modelled from the spec: default base URL constant from
`@/constants/urls`, a module not under `src/`.  The spec fixes no value;
the theorems below never depend on it, only on it being some fixed string. -/
def GEMINI_BASE_URL : String := "https://generativelanguage.googleapis.com"

/-- Modelled from the spec: default base URL constant from
`@/constants/urls` (see `GEMINI_BASE_URL`). -/
def OPENROUTER_BASE_URL : String := "https://openrouter.ai"

/-- Modelled from the spec: default base URL constant from
`@/constants/urls` (see `GEMINI_BASE_URL`). -/
def OPENAI_BASE_URL : String := "https://api.openai.com"

/-- Modelled from the spec: default base URL constant from
`@/constants/urls` (see `GEMINI_BASE_URL`). -/
def ANTHROPIC_BASE_URL : String := "https://api.anthropic.com"

/-- Modelled from the spec: default base URL constant from
`@/constants/urls` (see `GEMINI_BASE_URL`). -/
def DEEPSEEK_BASE_URL : String := "https://api.deepseek.com"

/-- Modelled from the spec: default base URL constant from
`@/constants/urls` (see `GEMINI_BASE_URL`). -/
def XAI_BASE_URL : String := "https://api.x.ai"

/-- Modelled from the spec: default base URL constant from
`@/constants/urls` (see `GEMINI_BASE_URL`). -/
def OLLAMA_BASE_URL : String := "http://127.0.0.1:11434"

/-! ### Observable behaviour of one `refresh` call -/

/-- One HTTP request as issued by `fetch(url, { headers })`. -/
structure Request where
  url : String
  headers : List (String × String)
deriving DecidableEq

/-- Observable behaviour of one `refresh(provider)` call: the fetch
requests issued in order, the argument of the `setModelList` call when one
happened (`none` = state untouched), and the resolved return value. -/
structure RefreshResult where
  fetched : List Request
  stateSet : Option (List String)
  result : List String
deriving DecidableEq

/-- The transport: per provider shape, the optional expected array field of
the JSON body the branch's single fetch would resolve with; `none` models a
valid JSON body in which that field is absent. -/
structure FetchBodies where
  google : Option (List GeminiModel) := none
  openrouter : Option (List OpenRouterModel) := none
  openai : Option (List OpenAIModel) := none
  anthropic : Option (List AnthropicModel) := none
  deepseek : Option (List OpenAIModel) := none
  xai : Option (List OpenAIModel) := none
  openaicompatible : Option (List OpenAIModel) := none
  ollama : Option (List OllamaModel) := none

/-! ### The eight provider branches of `refresh` -/

/-- The `provider === "google"` branch (useModelList.ts lines 95–127). -/
def refreshGoogle (st : SettingStore) (shuf : List String → List String)
    (models : Option (List GeminiModel)) : RefreshResult :=
  if (st.mode = Mode.loc ∧ st.apiKey = "") ∨
      (st.mode = Mode.proxy ∧ st.accessPassword = "") then
    ⟨[], none, []⟩
  else
    let apiKeys := shuf (strSplitOnComma st.apiKey)
    let req : Request :=
      { url :=
          if st.mode = Mode.loc then
            completePath (orDefault st.apiProxy GEMINI_BASE_URL) "/v1beta" ++ "/models"
          else "/api/ai/google/v1beta/models"
        headers :=
          [("x-goog-api-key",
            if st.mode = Mode.loc then apiKeys.headD "" else st.accessPassword)] }
    let newModelList :=
      ((models.getD []).filter fun item =>
          strStartsWith item.name "models/gemini" &&
          item.supportedGenerationMethods.contains "generateContent").map
        fun item => replaceFirst item.name "models/"
    ⟨[req], some newModelList, newModelList⟩

/-- The `provider === "openrouter"` branch (lines 128–157). -/
def refreshOpenRouter (st : SettingStore) (shuf : List String → List String)
    (data : Option (List OpenRouterModel)) : RefreshResult :=
  if (st.mode = Mode.loc ∧ st.openRouterApiKey = "") ∨
      (st.mode = Mode.proxy ∧ st.accessPassword = "") then
    ⟨[], none, []⟩
  else
    let apiKeys := shuf (strSplitOnComma st.openRouterApiKey)
    let req : Request :=
      { url :=
          if st.mode = Mode.loc then
            completePath (orDefault st.openRouterApiProxy OPENROUTER_BASE_URL) "/api/v1"
              ++ "/models"
          else "/api/ai/openrouter/v1/models"
        headers :=
          [("authorization",
            "Bearer " ++ (if st.mode = Mode.loc then apiKeys.headD "" else st.accessPassword))] }
    let newModelList := (data.getD []).map fun item => item.id
    ⟨[req], some newModelList, newModelList⟩

/-- The `provider === "openai"` branch (lines 158–196). -/
def refreshOpenAI (st : SettingStore) (shuf : List String → List String)
    (data : Option (List OpenAIModel)) : RefreshResult :=
  if (st.mode = Mode.loc ∧ st.openAIApiKey = "") ∨
      (st.mode = Mode.proxy ∧ st.accessPassword = "") then
    ⟨[], none, []⟩
  else
    let apiKeys := shuf (strSplitOnComma st.openAIApiKey)
    let req : Request :=
      { url :=
          if st.mode = Mode.loc then
            completePath (orDefault st.openAIApiProxy OPENAI_BASE_URL) "/v1" ++ "/models"
          else "/api/ai/openai/v1/models"
        headers :=
          [("authorization",
            "Bearer " ++ (if st.mode = Mode.loc then apiKeys.headD "" else st.accessPassword))] }
    let newModelList :=
      ((data.getD []).map fun item => item.id).filter fun id =>
        !(strStartsWith id "text" || strStartsWith id "tts" ||
          strStartsWith id "whisper" || strStartsWith id "dall-e")
    ⟨[req], some newModelList, newModelList⟩

/-- The `provider === "anthropic"` branch (lines 197–228). -/
def refreshAnthropic (st : SettingStore) (shuf : List String → List String)
    (data : Option (List AnthropicModel)) : RefreshResult :=
  if (st.mode = Mode.loc ∧ st.anthropicApiKey = "") ∨
      (st.mode = Mode.proxy ∧ st.accessPassword = "") then
    ⟨[], none, []⟩
  else
    let apiKeys := shuf (strSplitOnComma st.anthropicApiKey)
    let req : Request :=
      { url :=
          if st.mode = Mode.loc then
            completePath (orDefault st.anthropicApiProxy ANTHROPIC_BASE_URL) "/v1" ++ "/models"
          else "/api/ai/anthropic/v1/models"
        headers :=
          [("Content-Type", "application/json"),
           ("x-api-key", if st.mode = Mode.loc then apiKeys.headD "" else st.accessPassword),
           ("Anthropic-Version", "2023-06-01"),
           ("anthropic-dangerous-direct-browser-access", "true")] }
    let newModelList := (data.getD []).map fun item => item.id
    ⟨[req], some newModelList, newModelList⟩

/-- The `provider === "deepseek"` branch (lines 229–258). -/
def refreshDeepSeek (st : SettingStore) (shuf : List String → List String)
    (data : Option (List OpenAIModel)) : RefreshResult :=
  if (st.mode = Mode.loc ∧ st.deepseekApiKey = "") ∨
      (st.mode = Mode.proxy ∧ st.accessPassword = "") then
    ⟨[], none, []⟩
  else
    let apiKeys := shuf (strSplitOnComma st.deepseekApiKey)
    let req : Request :=
      { url :=
          if st.mode = Mode.loc then
            completePath (orDefault st.deepseekApiProxy DEEPSEEK_BASE_URL) "/v1" ++ "/models"
          else "/api/ai/deepseek/v1/models"
        headers :=
          [("authorization",
            "Bearer " ++ (if st.mode = Mode.loc then apiKeys.headD "" else st.accessPassword))] }
    let newModelList := (data.getD []).map fun item => item.id
    ⟨[req], some newModelList, newModelList⟩

/-- The `provider === "xai"` branch (lines 259–289). -/
def refreshXAI (st : SettingStore) (shuf : List String → List String)
    (data : Option (List OpenAIModel)) : RefreshResult :=
  if (st.mode = Mode.loc ∧ st.xAIApiKey = "") ∨
      (st.mode = Mode.proxy ∧ st.accessPassword = "") then
    ⟨[], none, []⟩
  else
    let apiKeys := shuf (strSplitOnComma st.xAIApiKey)
    let req : Request :=
      { url :=
          if st.mode = Mode.loc then
            completePath (orDefault st.xAIApiProxy XAI_BASE_URL) "/v1" ++ "/models"
          else "/api/ai/xai/v1/models"
        headers :=
          [("authorization",
            "Bearer " ++ (if st.mode = Mode.loc then apiKeys.headD "" else st.accessPassword))] }
    let newModelList :=
      ((data.getD []).map fun item => item.id).filter fun id => !(strIncludes id "image")
    ⟨[req], some newModelList, newModelList⟩

/-- The `provider === "openaicompatible"` branch (lines 290–319). -/
def refreshOpenAICompatible (st : SettingStore) (shuf : List String → List String)
    (data : Option (List OpenAIModel)) : RefreshResult :=
  if (st.mode = Mode.loc ∧ st.openAICompatibleApiKey = "") ∨
      (st.mode = Mode.proxy ∧ st.accessPassword = "") then
    ⟨[], none, []⟩
  else
    let apiKeys := shuf (strSplitOnComma st.openAICompatibleApiKey)
    let req : Request :=
      { url :=
          if st.mode = Mode.loc then
            completePath (orDefault st.openAICompatibleApiProxy OPENAI_BASE_URL) "/v1"
              ++ "/models"
          else "/api/ai/openaicompatible/v1/models"
        headers :=
          [("authorization",
            "Bearer " ++ (if st.mode = Mode.loc then apiKeys.headD "" else st.accessPassword))] }
    let newModelList := (data.getD []).map fun item => item.id
    ⟨[req], some newModelList, newModelList⟩

/-- The `provider === "ollama"` branch (lines 320–339).  No credential is
read in local mode: only the proxy-mode password is checked, and the local
request carries no header at all. -/
def refreshOllama (st : SettingStore)
    (models : Option (List OllamaModel)) : RefreshResult :=
  if st.mode = Mode.proxy ∧ st.accessPassword = "" then
    ⟨[], none, []⟩
  else
    let headers : List (String × String) :=
      if st.mode = Mode.proxy then [("Authorization", "Bearer " ++ st.accessPassword)] else []
    let req : Request :=
      { url :=
          if st.mode = Mode.proxy then "/api/ai/ollama/api/tags"
          else completePath (orDefault st.ollamaApiProxy OLLAMA_BASE_URL) "/api" ++ "/tags"
        headers := headers }
    let newModelList := (models.getD []).map fun item => item.name
    ⟨[req], some newModelList, newModelList⟩

/-- `refresh(provider)` (lines 94–343): the if/else-if provider dispatch;
an unknown identifier falls through to `return []` with no fetch and no
state update. -/
def refresh (st : SettingStore) (shuf : List String → List String)
    (bodies : FetchBodies) (provider : String) : RefreshResult :=
  if provider = "google" then refreshGoogle st shuf bodies.google
  else if provider = "openrouter" then refreshOpenRouter st shuf bodies.openrouter
  else if provider = "openai" then refreshOpenAI st shuf bodies.openai
  else if provider = "anthropic" then refreshAnthropic st shuf bodies.anthropic
  else if provider = "deepseek" then refreshDeepSeek st shuf bodies.deepseek
  else if provider = "xai" then refreshXAI st shuf bodies.xai
  else if provider = "openaicompatible" then
    refreshOpenAICompatible st shuf bodies.openaicompatible
  else if provider = "ollama" then refreshOllama st bodies.ollama
  else ⟨[], none, []⟩

/-! ### Spec-transcribed definitions and provider tables

The two `...NormSpec` functions and `stripLeading` transcribe the spec's
normalizer table; the theorems below compare them with the embedded source.
The provider tables record which credential field each branch of the source
destructures and which header set it builds. -/

/-- Spec-side helper: "strip the leading `pat`" — drop `pat` from the front
of `s` when it is a prefix of `s`, leave `s` unchanged otherwise. -/
def stripLeading (pat s : String) : String :=
  if pat.data.isPrefixOf s.data then ⟨s.data.drop pat.data.length⟩ else s

/-- Spec-transcribed Google normalizer: keep exactly the entries whose
`name` starts with `models/gemini` and whose `supportedGenerationMethods`
contains `generateContent`; map each kept entry to its `name` with the
leading `models/` stripped. -/
def googleNormSpec (models : List GeminiModel) : List String :=
  (models.filter fun item =>
      strStartsWith item.name "models/gemini" &&
      item.supportedGenerationMethods.contains "generateContent").map
    fun item => stripLeading "models/" item.name

/-- Spec-transcribed OpenAI normalizer: map each entry to its `id`, then
drop every id starting with `text`, `tts`, `whisper` or `dall-e`. -/
def openAINormSpec (data : List OpenAIModel) : List String :=
  (data.map fun item => item.id).filter fun id =>
    !(strStartsWith id "text" || strStartsWith id "tts" ||
      strStartsWith id "whisper" || strStartsWith id "dall-e")

/-- The eight supported provider identifiers, in dispatch order. -/
def supportedProviders : List String :=
  ["google", "openrouter", "openai", "anthropic", "deepseek", "xai",
   "openaicompatible", "ollama"]

/-- The providers whose branch reads a provider-specific credential:
every supported provider except `ollama`, whose branch reads none. -/
def credentialedProviders : List String :=
  ["google", "openrouter", "openai", "anthropic", "deepseek", "xai",
   "openaicompatible"]

/-- The provider-specific credential field the given provider's branch
destructures from the store; `none` for `ollama` (its branch reads no
credential field) and for unknown providers. -/
def localCredOf (provider : String) (st : SettingStore) : Option String :=
  if provider = "google" then some st.apiKey
  else if provider = "openrouter" then some st.openRouterApiKey
  else if provider = "openai" then some st.openAIApiKey
  else if provider = "anthropic" then some st.anthropicApiKey
  else if provider = "deepseek" then some st.deepseekApiKey
  else if provider = "xai" then some st.xAIApiKey
  else if provider = "openaicompatible" then some st.openAICompatibleApiKey
  else none

/-- The header set a credentialed provider's branch sends in local mode
when the active credential is `k` (the authentication-header table of the
spec). -/
def localHeaders (provider k : String) : List (String × String) :=
  if provider = "google" then [("x-goog-api-key", k)]
  else if provider = "anthropic" then
    [("Content-Type", "application/json"), ("x-api-key", k),
     ("Anthropic-Version", "2023-06-01"),
     ("anthropic-dangerous-direct-browser-access", "true")]
  else [("authorization", "Bearer " ++ k)]

/-- A transport whose JSON bodies all lack their expected array field. -/
def emptyBodies : FetchBodies := {}

/-- The Google example body of the spec's testable properties: three
entries, of which only `models/gemini-pro` both has the `models/gemini`
name shape and supports `generateContent`. -/
def googleExampleModels : List GeminiModel :=
  [{ name := "models/gemini-pro", supportedGenerationMethods := ["generateContent"] },
   { name := "models/gemini-old", supportedGenerationMethods := ["embedContent"] },
   { name := "models/other-x", supportedGenerationMethods := ["generateContent"] }]

/-- The OpenAI example body of the spec's testable properties. -/
def openAIExampleModels : List OpenAIModel :=
  [{ id := "gpt-4" }, { id := "whisper-1" }, { id := "dall-e-3" }, { id := "text-embedding-3" }]

/-- A proxy-mode configuration holding a locally stored Google API key and
proxy override; compare `proxyStoreB`. -/
def proxyStoreA : SettingStore :=
  { mode := Mode.proxy, accessPassword := "pw", apiKey := "a",
    apiProxy := "https://example.com" }

/-- A proxy-mode configuration sharing `proxyStoreA`'s password but
differing in the locally stored Google API key and proxy override. -/
def proxyStoreB : SettingStore :=
  { mode := Mode.proxy, accessPassword := "pw" , apiKey := "b" }

/-! ### Helper lemmas -/

/-- `splitOnChar` never returns the empty list (JS `split` always yields at
least one piece). -/
theorem splitOnChar_ne_nil (c : Char) (l : List Char) : splitOnChar c l ≠ [] := by
  cases l with
  | nil => simp [splitOnChar]
  | cons x xs =>
    rw [splitOnChar]
    cases hx : splitOnChar c xs <;> dsimp only <;> split <;> simp

/-- The comma-split credential pool is never empty. -/
theorem strSplitOnComma_ne_nil (s : String) : strSplitOnComma s ≠ [] := by
  simp only [strSplitOnComma, ne_eq, List.map_eq_nil_iff]
  exact splitOnChar_ne_nil ',' s.data

/-- When `pat` occurs at the very front, removing its first occurrence is
dropping the first `pat.length` characters. -/
theorem removeFirst_leading {pat l : List Char} (h : pat.isPrefixOf l = true) :
    removeFirst pat l = l.drop pat.length := by
  cases l with
  | nil =>
    cases pat with
    | nil => rfl
    | cons a as => simp [List.isPrefixOf] at h
  | cons c cs => rw [removeFirst, if_pos h]

/-- On strings that start with `pat`, the JS first-occurrence `replace`
with the empty replacement coincides with stripping the leading `pat`. -/
theorem replaceFirst_eq_stripLeading {s pat : String}
    (h : pat.data.isPrefixOf s.data = true) :
    replaceFirst s pat = stripLeading pat s := by
  simp only [replaceFirst, stripLeading, if_pos h, removeFirst_leading h]

/-- A name that starts with `models/gemini` in particular starts with
`models/`. -/
theorem models_prefix_of_gemini {s : String}
    (h : strStartsWith s "models/gemini" = true) :
    ("models/" : String).data.isPrefixOf s.data = true := by
  rw [strStartsWith] at h
  rw [ List.isPrefixOf_iff_prefix] at h ⊢
  exact List.IsPrefix.trans (by decide) h

/-- The head (with default) of any permutation of a nonempty list is a
member of that list. -/
theorem headD_mem_of_perm {l l' : List String} (h : l'.Perm l) (hne : l ≠ []) :
    l'.headD "" ∈ l := by
  cases hl' : l' with
  | nil => rw [hl'] at h; exact absurd (List.nil_perm.mp h) hne
  | cons a t =>
    rw [hl'] at h
    exact h.mem_iff.mp (List.mem_cons_self a t)

/-! ### The claims -/

/-- C1: for every supported provider, if the mode is local and the
provider-specific credential is empty, or the mode is proxy and the shared
access password is empty, then `refresh(provider)` returns the empty list
and issues zero fetch calls. -/
theorem refresh_missing_credential_no_fetch
    (st : SettingStore) (shuf : List String → List String) (bodies : FetchBodies)
    (provider : String) (hp : provider ∈ supportedProviders)
    (h : (st.mode = Mode.loc ∧ localCredOf provider st = some "") ∨
         (st.mode = Mode.proxy ∧ st.accessPassword = "")) :
    (refresh st shuf bodies provider).result = [] ∧
      (refresh st shuf bodies provider).fetched = [] := by
  simp only [supportedProviders, List.mem_cons, List.not_mem_nil, or_false] at hp
  rcases hp with rfl | rfl | rfl | rfl | rfl | rfl | rfl | rfl <;>
    simp only [localCredOf, String.reduceEq, reduceIte, Option.some.injEq,
      reduceCtorEq, false_and, and_false, or_false, false_or, if_pos rfl] at h <;>
    simp [refresh, refreshGoogle, refreshOpenRouter, refreshOpenAI, refreshAnthropic,
      refreshDeepSeek, refreshXAI, refreshOpenAICompatible, refreshOllama, h]

/-- C1 witness: local mode with the Google key empty. -/
theorem refresh_missing_credential_no_fetch_witness :
    (refresh { mode := Mode.loc } id emptyBodies "google").result = [] ∧
      (refresh { mode := Mode.loc } id emptyBodies "google").fetched = [] :=
  refresh_missing_credential_no_fetch { mode := Mode.loc } id emptyBodies "google"
    (by decide) (Or.inl ⟨rfl, rfl⟩)

/-- C2: the Google normalizer keeps exactly the entries of `models` whose
`name` starts with `models/gemini` and whose `supportedGenerationMethods`
contains `generateContent`, and maps each kept entry to its `name` with the
leading `models/` stripped (the spec-transcribed `googleNormSpec`); the
witness instantiates the spec's example body, yielding `["gemini-pro"]`. -/
theorem google_normalizer_strips_and_filters
    (st : SettingStore) (shuf : List String → List String) (ms : List GeminiModel)
    (hm : st.mode = Mode.proxy) (hpw : st.accessPassword ≠ "") :
    (refresh st shuf { google := some ms } "google").result = googleNormSpec ms := by
  simp [refresh, refreshGoogle, googleNormSpec, hm, hpw]
  intro a _ h1 _
  exact replaceFirst_eq_stripLeading (models_prefix_of_gemini h1)

/-- C2 witness: the spec's Google example body yields `["gemini-pro"]`. -/
theorem google_normalizer_strips_and_filters_witness :
    (refresh { mode := Mode.proxy, accessPassword := "pw" } id
        { google := some googleExampleModels } "google").result = ["gemini-pro"] :=
  (google_normalizer_strips_and_filters { mode := Mode.proxy, accessPassword := "pw" }
      id googleExampleModels rfl (by decide)).trans (by decide)

/-- C3 counterexample: the claim "for every supported provider exactly one
of {local-mode credential, proxy-mode shared access password} is required,
selected by the current mode, and absence of the required credential yields
an empty result without issuing a request" fails at provider `ollama` in
local mode: with every credential field and the password empty, `refresh`
still issues one request and returns a nonempty list. -/
theorem ollama_local_requires_no_credential_cex :
    (refresh { mode := Mode.loc } id { ollama := some [{ name := "llama3" }] }
        "ollama").fetched.length = 1 ∧
      (refresh { mode := Mode.loc } id { ollama := some [{ name := "llama3" }] }
        "ollama").result = ["llama3"] := by
  constructor <;> rfl

/-- C3 amended: for every supported provider other than `ollama`, exactly
the mode-selected credential is required — in local mode the provider
credential (absence: empty result, no request; presence: one request, the
password playing no role), in proxy mode the shared password (absence:
empty result, no request; presence: one request, the provider credential
playing no role).  For `ollama`, the proxy-mode password is required as
above, but local mode requires nothing: the request is always issued. -/
theorem credential_requirement_by_mode
    (st : SettingStore) (shuf : List String → List String) (bodies : FetchBodies) :
    (∀ provider ∈ credentialedProviders, ∀ cred, localCredOf provider st = some cred →
      ((st.mode = Mode.loc → cred = "" →
          refresh st shuf bodies provider = ⟨[], none, []⟩) ∧
        (st.mode = Mode.loc → cred ≠ "" →
          (refresh st shuf bodies provider).fetched.length = 1) ∧
        (st.mode = Mode.proxy → st.accessPassword = "" →
          refresh st shuf bodies provider = ⟨[], none, []⟩) ∧
        (st.mode = Mode.proxy → st.accessPassword ≠ "" →
          (refresh st shuf bodies provider).fetched.length = 1))) ∧
      ((st.mode = Mode.proxy → st.accessPassword = "" →
          refresh st shuf bodies "ollama" = ⟨[], none, []⟩) ∧
        (st.mode = Mode.proxy → st.accessPassword ≠ "" →
          (refresh st shuf bodies "ollama").fetched.length = 1) ∧
        (st.mode = Mode.loc →
          (refresh st shuf bodies "ollama").fetched.length = 1)) := by
  constructor
  · intro provider hp cred hc
    simp only [credentialedProviders, List.mem_cons, List.not_mem_nil, or_false] at hp
    rcases hp with rfl | rfl | rfl | rfl | rfl | rfl | rfl <;>
      simp only [localCredOf, String.reduceEq, reduceIte, Option.some.injEq] at hc <;>
      subst hc <;>
      refine ⟨fun hm h2 => ?_, fun hm h2 => ?_, fun hm h2 => ?_, fun hm h2 => ?_⟩ <;>
      simp [refresh, refreshGoogle, refreshOpenRouter, refreshOpenAI, refreshAnthropic,
        refreshDeepSeek, refreshXAI, refreshOpenAICompatible, hm, h2]
  · refine ⟨fun hm h2 => ?_, fun hm h2 => ?_, fun hm => ?_⟩ <;>
      simp [refresh, refreshOllama, hm, *]

/-- C3 amended witness: Google in local mode with an empty/nonempty key,
and ollama in local mode fetching with no credential at all. -/
theorem credential_requirement_by_mode_witness :
    refresh { mode := Mode.loc } id emptyBodies "google" = ⟨[], none, []⟩ ∧
      (refresh { mode := Mode.loc, apiKey := "k" } id emptyBodies "google").fetched.length = 1 ∧
      (refresh { mode := Mode.loc } id emptyBodies "ollama").fetched.length = 1 :=
  ⟨((credential_requirement_by_mode { mode := Mode.loc } id emptyBodies).1 "google"
      (by decide) "" rfl).1 rfl rfl,
   ((credential_requirement_by_mode { mode := Mode.loc, apiKey := "k" } id emptyBodies).1 "google"
      (by decide) "k" rfl).2.1 rfl (by decide),
   (credential_requirement_by_mode { mode := Mode.loc } id emptyBodies).2.2.2 rfl⟩

/-- C4: in local mode, for every credentialed provider and every outcome of
the random permutation of the comma-split credential pool, the request's
authentication header carries the first element of the shuffled pool, which
is a member of the pool; exactly one request with exactly that one header
set is issued. -/
theorem local_mode_uses_one_pool_credential
    (st : SettingStore) (shuf : List String → List String) (bodies : FetchBodies)
    (provider : String) (hp : provider ∈ credentialedProviders)
    (hm : st.mode = Mode.loc)
    (cred : String) (hc : localCredOf provider st = some cred) (hcne : cred ≠ "")
    (hperm : (shuf (strSplitOnComma cred)).Perm (strSplitOnComma cred)) :
    (shuf (strSplitOnComma cred)).headD "" ∈ strSplitOnComma cred ∧
      (refresh st shuf bodies provider).fetched.map Request.headers =
        [localHeaders provider ((shuf (strSplitOnComma cred)).headD "")] := by
  refine ⟨headD_mem_of_perm hperm (strSplitOnComma_ne_nil cred), ?_⟩
  simp only [credentialedProviders, List.mem_cons, List.not_mem_nil, or_false] at hp
  rcases hp with rfl | rfl | rfl | rfl | rfl | rfl | rfl <;>
    simp only [localCredOf, String.reduceEq, reduceIte, Option.some.injEq] at hc <;>
    subst hc <;>
    simp [refresh, refreshGoogle, refreshOpenRouter, refreshOpenAI, refreshAnthropic,
      refreshDeepSeek, refreshXAI, refreshOpenAICompatible, localHeaders, hm, hcne]

/-- C4 witness: Google with the two-element pool `"k1,k2"` and the identity
permutation. -/
theorem local_mode_uses_one_pool_credential_witness :
    (strSplitOnComma "k1,k2").headD "" ∈ strSplitOnComma "k1,k2" ∧
      (refresh { mode := Mode.loc, apiKey := "k1,k2" } id emptyBodies "google").fetched.map
          Request.headers = [localHeaders "google" ((strSplitOnComma "k1,k2").headD "")] :=
  local_mode_uses_one_pool_credential { mode := Mode.loc, apiKey := "k1,k2" } id emptyBodies
    "google" (by decide) rfl "k1,k2" rfl (by decide) (List.Perm.refl _)

/-- C5: in proxy mode every supported provider's request URL is its fixed
internal forwarding path, regardless of any user-supplied proxy override
(the settings store is universally quantified). -/
theorem proxy_mode_fixed_forwarding_paths
    (st : SettingStore) (shuf : List String → List String) (bodies : FetchBodies)
    (hm : st.mode = Mode.proxy) (hpw : st.accessPassword ≠ "") :
    (refresh st shuf bodies "google").fetched.map Request.url =
        ["/api/ai/google/v1beta/models"] ∧
      (refresh st shuf bodies "openrouter").fetched.map Request.url =
        ["/api/ai/openrouter/v1/models"] ∧
      (refresh st shuf bodies "openai").fetched.map Request.url =
        ["/api/ai/openai/v1/models"] ∧
      (refresh st shuf bodies "anthropic").fetched.map Request.url =
        ["/api/ai/anthropic/v1/models"] ∧
      (refresh st shuf bodies "deepseek").fetched.map Request.url =
        ["/api/ai/deepseek/v1/models"] ∧
      (refresh st shuf bodies "xai").fetched.map Request.url =
        ["/api/ai/xai/v1/models"] ∧
      (refresh st shuf bodies "openaicompatible").fetched.map Request.url =
        ["/api/ai/openaicompatible/v1/models"] ∧
      (refresh st shuf bodies "ollama").fetched.map Request.url =
        ["/api/ai/ollama/api/tags"] := by
  refine ⟨?_, ?_, ?_, ?_, ?_, ?_, ?_, ?_⟩ <;>
    simp [refresh, refreshGoogle, refreshOpenRouter, refreshOpenAI, refreshAnthropic,
      refreshDeepSeek, refreshXAI, refreshOpenAICompatible, refreshOllama, hm, hpw]

/-- C5 witness: a concrete proxy-mode store; the Google conjunct. -/
theorem proxy_mode_fixed_forwarding_paths_witness :
    (refresh { mode := Mode.proxy, accessPassword := "pw" } id emptyBodies "google").fetched.map
        Request.url = ["/api/ai/google/v1beta/models"] :=
  (proxy_mode_fixed_forwarding_paths { mode := Mode.proxy, accessPassword := "pw" } id
      emptyBodies rfl (by decide)).1

/-- C6: for every supported provider, a valid JSON body whose expected
array field (`models` or `data`) is absent is treated as the empty array:
the request is issued and the normalizer returns the empty list without
raising. -/
theorem missing_array_field_yields_empty
    (st : SettingStore) (shuf : List String → List String)
    (provider : String) (hp : provider ∈ supportedProviders)
    (hm : st.mode = Mode.proxy) (hpw : st.accessPassword ≠ "") :
    (refresh st shuf emptyBodies provider).fetched.length = 1 ∧
      (refresh st shuf emptyBodies provider).result = [] := by
  simp only [supportedProviders, List.mem_cons, List.not_mem_nil, or_false] at hp
  rcases hp with rfl | rfl | rfl | rfl | rfl | rfl | rfl | rfl <;>
    simp [refresh, refreshGoogle, refreshOpenRouter, refreshOpenAI, refreshAnthropic,
      refreshDeepSeek, refreshXAI, refreshOpenAICompatible, refreshOllama,
      emptyBodies, hm, hpw]

/-- C6 witness: Google in proxy mode with a body lacking `models`. -/
theorem missing_array_field_yields_empty_witness :
    (refresh { mode := Mode.proxy, accessPassword := "pw" } id emptyBodies
        "google").fetched.length = 1 ∧
      (refresh { mode := Mode.proxy, accessPassword := "pw" } id emptyBodies
        "google").result = [] :=
  missing_array_field_yields_empty { mode := Mode.proxy, accessPassword := "pw" } id
    "google" (by decide) rfl (by decide)

/-- C7: the OpenAI normalizer maps each entry of `data` to its `id` and
drops every id starting with `text`, `tts`, `whisper` or `dall-e`,
preserving order (the spec-transcribed `openAINormSpec`); the witness
instantiates the spec's example body, yielding `["gpt-4"]`. -/
theorem openai_normalizer_filters_ids
    (st : SettingStore) (shuf : List String → List String) (ds : List OpenAIModel)
    (hm : st.mode = Mode.proxy) (hpw : st.accessPassword ≠ "") :
    (refresh st shuf { openai := some ds } "openai").result = openAINormSpec ds := by
  simp [refresh, refreshOpenAI, openAINormSpec, hm, hpw]

/-- C7 witness: the spec's OpenAI example body yields `["gpt-4"]`. -/
theorem openai_normalizer_filters_ids_witness :
    (refresh { mode := Mode.proxy, accessPassword := "pw" } id
        { openai := some openAIExampleModels } "openai").result = ["gpt-4"] :=
  (openai_normalizer_filters_ids { mode := Mode.proxy, accessPassword := "pw" } id
      openAIExampleModels rfl (by decide)).trans (by decide)

/-- C8: the ollama request carries no authentication header at all in local
mode, and in proxy mode carries exactly the single header
`Authorization: Bearer <accessPassword>`. -/
theorem ollama_auth_header_by_mode
    (st : SettingStore) (shuf : List String → List String) (bodies : FetchBodies) :
    (st.mode = Mode.loc →
      (refresh st shuf bodies "ollama").fetched.map Request.headers = [[]]) ∧
      (st.mode = Mode.proxy → st.accessPassword ≠ "" →
        (refresh st shuf bodies "ollama").fetched.map Request.headers =
          [[("Authorization", "Bearer " ++ st.accessPassword)]]) := by
  constructor
  · intro hm
    simp [refresh, refreshOllama, hm]
  · intro hm hpw
    simp [refresh, refreshOllama, hm, hpw]

/-- C8 witness: ollama in local mode (no headers) and in proxy mode with
password `pw` (exactly the bearer header). -/
theorem ollama_auth_header_by_mode_witness :
    (refresh { mode := Mode.loc } id emptyBodies "ollama").fetched.map Request.headers =
        [[]] ∧
      (refresh { mode := Mode.proxy, accessPassword := "pw" } id emptyBodies
          "ollama").fetched.map Request.headers = [[("Authorization", "Bearer pw")]] :=
  ⟨(ollama_auth_header_by_mode { mode := Mode.loc } id emptyBodies).1 rfl,
   ((ollama_auth_header_by_mode { mode := Mode.proxy, accessPassword := "pw" } id
        emptyBodies).2 rfl (by decide)).trans (by decide)⟩

/-- C9: on every early-return path — missing mode-selected credential or
unknown provider identifier — `refresh` performs no `setModelList` call
(the held model-list state is untouched), issues no fetch, and returns the
empty list. -/
theorem early_return_leaves_state_untouched
    (st : SettingStore) (shuf : List String → List String) (bodies : FetchBodies)
    (provider : String)
    (h : (st.mode = Mode.loc ∧ localCredOf provider st = some "") ∨
         (st.mode = Mode.proxy ∧ st.accessPassword = "") ∨
         provider ∉ supportedProviders) :
    (refresh st shuf bodies provider).stateSet = none ∧
      (refresh st shuf bodies provider).fetched = [] ∧
      (refresh st shuf bodies provider).result = [] := by
  by_cases hp : provider ∈ supportedProviders
  · rcases h with h | h | h
    · simp only [supportedProviders, List.mem_cons, List.not_mem_nil, or_false] at hp
      rcases hp with rfl | rfl | rfl | rfl | rfl | rfl | rfl | rfl <;>
        simp only [localCredOf, String.reduceEq, reduceIte, Option.some.injEq,
          reduceCtorEq] at h <;>
        simp [refresh, refreshGoogle, refreshOpenRouter, refreshOpenAI, refreshAnthropic,
          refreshDeepSeek, refreshXAI, refreshOpenAICompatible, refreshOllama, h]
    · simp only [supportedProviders, List.mem_cons, List.not_mem_nil, or_false] at hp
      rcases hp with rfl | rfl | rfl | rfl | rfl | rfl | rfl | rfl <;>
        simp [refresh, refreshGoogle, refreshOpenRouter, refreshOpenAI, refreshAnthropic,
          refreshDeepSeek, refreshXAI, refreshOpenAICompatible, refreshOllama, h]
    · exact absurd hp h
  · simp only [supportedProviders, List.mem_cons, List.not_mem_nil, or_false,
      not_or] at hp
    simp [refresh, hp.1, hp.2.1, hp.2.2.1, hp.2.2.2.1, hp.2.2.2.2.1,
      hp.2.2.2.2.2.1, hp.2.2.2.2.2.2.1, hp.2.2.2.2.2.2.2]

/-- C9 witness: the unknown provider identifier `unknown`. -/
theorem early_return_leaves_state_untouched_witness :
    (refresh { mode := Mode.loc } id emptyBodies "unknown").stateSet = none ∧
      (refresh { mode := Mode.loc } id emptyBodies "unknown").fetched = [] ∧
      (refresh { mode := Mode.loc } id emptyBodies "unknown").result = [] :=
  early_return_leaves_state_untouched { mode := Mode.loc } id emptyBodies "unknown"
    (Or.inr (Or.inr (by decide)))

/-- C10: in proxy mode the issued requests (URL and headers) do not depend
on the locally stored provider API keys, the proxy-URL overrides, the
permutation outcome, or the transport: any two configurations with the same
non-empty access password issue identical requests for every supported
provider. -/
theorem proxy_requests_ignore_local_credentials
    (st₁ st₂ : SettingStore) (shuf₁ shuf₂ : List String → List String)
    (bodies₁ bodies₂ : FetchBodies) (provider : String)
    (hp : provider ∈ supportedProviders)
    (hm₁ : st₁.mode = Mode.proxy) (hm₂ : st₂.mode = Mode.proxy)
    (hpw : st₁.accessPassword = st₂.accessPassword)
    (hne : st₁.accessPassword ≠ "") :
    (refresh st₁ shuf₁ bodies₁ provider).fetched =
      (refresh st₂ shuf₂ bodies₂ provider).fetched := by
  have hne₂ : st₂.accessPassword ≠ "" := hpw ▸ hne
  simp only [supportedProviders, List.mem_cons, List.not_mem_nil, or_false] at hp
  rcases hp with rfl | rfl | rfl | rfl | rfl | rfl | rfl | rfl <;>
    simp [refresh, refreshGoogle, refreshOpenRouter, refreshOpenAI, refreshAnthropic,
      refreshDeepSeek, refreshXAI, refreshOpenAICompatible, refreshOllama,
      hm₁, hm₂, hpw, hne, hne₂]

/-- C10 witness: `proxyStoreA` and `proxyStoreB` differ in the stored
Google key and proxy override yet issue the same request. -/
theorem proxy_requests_ignore_local_credentials_witness :
    (refresh proxyStoreA id emptyBodies "google").fetched =
      (refresh proxyStoreB id emptyBodies "google").fetched :=
  proxy_requests_ignore_local_credentials proxyStoreA proxyStoreB id id emptyBodies
    emptyBodies "google" (by decide) rfl rfl rfl (by decide)

end DeepResearch
